import Mathlib

/-!
Verification of the freestyle-hid session layer (`src/freestyle_hid/_session.py`)
against its natural-language specification.

Bytes are modelled as `Nat` (values < 256 where the source guarantees it),
byte strings as `List Nat`.  The Speck cipher and Speck-CMAC live outside the
source tree, so the session operations are parameterised over abstract
encrypt/decrypt/sign functions of types `Nat → Nat → List Nat → List Nat`
(key, iv, data) and `Nat → List Nat → Nat` (key, data); the theorems below
are about the byte-level framing, offsets, keep-alive filtering and checksum
logic that `_session.py` itself implements.
-/

deriving instance DecidableEq for Except

namespace FreestyleHid

/-- `_ALWAYS_UNENCRYPTED_MESSAGES` from `_session.py` lines 33-47, in source
order. -/
def _ALWAYS_UNENCRYPTED_MESSAGES : List Nat :=
  [0x01, 0x04, 0x05, 0x06, 0x0C, 0x0D, 0x14, 0x15, 0x33, 0x34, 0x35, 0x71, 0x22]

/-- `_create_matcher` (lines 50-56): a matcher closure over an expected type
and an optional exact payload. -/
def _create_matcher (message_type : Nat) (content : Option (List Nat)) :
    Nat × List Nat → Bool :=
  fun message =>
    message.1 == message_type &&
      (match content with
       | none => true
       | some c => c == message.2)

def _is_init_reply : Nat × List Nat → Bool := _create_matcher 0x71 (some [0x01])

def _is_keepalive_response : Nat × List Nat → Bool := _create_matcher 0x22 none

def _is_unknown_message_error : Nat × List Nat → Bool :=
  _create_matcher 0x30 (some [0x85])

def _is_encryption_missing_error : Nat × List Nat → Bool :=
  _create_matcher 0x33 (some [0x15])

def _is_encryption_setup_error : Nat × List Nat → Bool :=
  _create_matcher 0x33 (some [0x14])

/-- `_FREESTYLE_MESSAGE.build` (lines 65-72 and 209-211): a 65-byte frame
`[report-id=0][type][len][payload][zero pad]`.  `construct` fails when the
message type does not fit one byte or when the prefixed, 63-byte-padded
command is longer than 62 bytes. -/
def _FREESTYLE_MESSAGE_build (message_type : Nat) (command : List Nat) :
    Option (List Nat) :=
  if message_type ≤ 255 ∧ command.length ≤ 62 then
    some (0 :: message_type :: command.length ::
      (command ++ List.replicate (62 - command.length) 0))
  else none

/-- `_FREESTYLE_MESSAGE.parse`: the same `construct` struct run in the parse
direction over a 65-byte outbound-layout frame: a constant `0` report-id
byte, the type byte, then a length-prefixed payload inside a 63-byte padding
window. -/
def _FREESTYLE_MESSAGE_parse (frame : List Nat) : Option (Nat × List Nat) :=
  if 65 ≤ frame.length ∧ frame.getD 0 1 = 0 ∧ frame.getD 2 0 ≤ 62 then
    some (frame.getD 1 0, (frame.drop 3).take (frame.getD 2 0))
  else none

/-- Errors raised by the session layer (`ChecksumError`, `CommandError`,
`AssertionError`, `IndexError` and construct build errors of the source,
split by site). -/
inductive SessionError where
  | emptyPacket
  | indexError
  | integrityError
  | noSessionKeys
  | transportError
  | encodeError
  | unknownMessage
  | encryptionMissing
  | encryptionSetupFailed
  | unexpectedType (t : Nat)
  | malformedReply
  | checksumError
  | commandFailed
deriving DecidableEq

/-- `int.to_bytes(x, n, byteorder='little')` (truncating at `n` bytes). -/
def toBytesLE : Nat → Nat → List Nat
  | 0, _ => []
  | n + 1, x => x % 256 :: toBytesLE n (x / 256)

/-- `int.from_bytes(l, 'big')`. -/
def fromBytesBE (l : List Nat) : Nat := l.foldl (fun a b => a * 256 + b) 0

/-- Python slice assignment `output[a:b] = repl` on a bytearray. -/
def setSlice (l : List Nat) (a b : Nat) (repl : List Nat) : List Nat :=
  l.take a ++ repl ++ l.drop b

/-- `int(c, 16)` on a single hex digit byte. -/
def hexDigitVal (b : Nat) : Nat :=
  if 48 ≤ b ∧ b ≤ 57 then b - 48
  else if 65 ≤ b ∧ b ≤ 70 then b - 55
  else if 97 ≤ b ∧ b ≤ 102 then b - 87
  else 0

/-- `int(l, 16)` on a string of hex digit bytes. -/
def hexValue (l : List Nat) : Nat := l.foldl (fun a b => a * 16 + hexDigitVal b) 0

/-- `_verify_checksum` (lines 86-109): compare `int(expected_checksum_hex, 16)`
with the plain sum of the message bytes; raise `ChecksumError` on mismatch.
The source compares the full, unreduced Python integer sum. -/
def _verify_checksum (message : List Nat) (expected_checksum_hex : List Nat) :
    Except SessionError Unit :=
  if hexValue expected_checksum_hex = message.sum then .ok ()
  else .error .checksumError

/-- Uppercase hex digit byte for a value below 16. -/
def hexDigitChar (d : Nat) : Nat := if d < 10 then 48 + d else 55 + d

/-- The 8-hex-digit (32-bit) uppercase representation of `n % 2^32` used by
the device checksum trailer. -/
def toHex8 (n : Nat) : List Nat :=
  [hexDigitChar (n / 268435456 % 16), hexDigitChar (n / 16777216 % 16),
   hexDigitChar (n / 1048576 % 16), hexDigitChar (n / 65536 % 16),
   hexDigitChar (n / 4096 % 16), hexDigitChar (n / 256 % 16),
   hexDigitChar (n / 16 % 16), hexDigitChar (n % 16)]

/-- `Session.encrypt_message` (lines 181-190), parameterised over the Speck
encrypt and CMAC sign primitives and the installed `(enc_key, mac_key)` pair:
encrypt bytes `[2:57)` under IV `0xFF`, zero the IV counter field `[57:61)`,
MAC bytes `[1:61)` and store bytes `[4:]` of the little-endian 8-byte tag in
`[61:65)`. -/
def encrypt_message (encF : Nat → Nat → List Nat → List Nat)
    (signF : Nat → List Nat → Nat) (keys : Nat × Nat) (packet : List Nat) :
    List Nat :=
  let encrypted := encF keys.1 0xFF ((packet.drop 2).take 55)
  let o1 := setSlice packet 2 57 encrypted
  let o2 := setSlice o1 57 61 [0, 0, 0, 0]
  let mac := signF keys.2 ((o2.drop 1).take 60)
  setSlice o2 61 65 ((toBytesLE 8 mac).drop 4)

/-- `Session.decrypt_message` (lines 192-199): MAC bytes `[0:60)`, compare
bytes `[4:]` of the little-endian 8-byte tag with `[60:64)` (`assert`), then
decrypt bytes `[1:56)` in place under IV `u32_be(packet[56:60)) << 8`. -/
def decrypt_message (decF : Nat → Nat → List Nat → List Nat)
    (signF : Nat → List Nat → Nat) (keys : Nat × Nat) (packet : List Nat) :
    Option (List Nat) :=
  if (toBytesLE 8 (signF keys.2 (packet.take 60))).drop 4
      = (packet.drop 60).take 4 then
    some (setSlice packet 1 56
      (decF keys.1 (fromBytesBE ((packet.drop 56).take 4) * 256)
        ((packet.drop 1).take 55)))
  else none

/-- Modelled from the spec: the amended reading of §4.4 Unprotect.  Verify
`CMAC(mac_key, frame[0..60))` by comparing bytes 4..8 of its 8-byte
little-endian encoding (its high 4 bytes) with `frame[60..64)`; on mismatch
signal an integrity error and discard; only then decrypt bytes `[1..56)` in
place using `IV = u32_be(frame[56..60)) << 8`. -/
def unprotectSpecHigh (decF : Nat → Nat → List Nat → List Nat)
    (signF : Nat → List Nat → Nat) (keys : Nat × Nat) (frame : List Nat) :
    Option (List Nat) :=
  let tag := toBytesLE 8 (signF keys.2 (frame.take 60))
  if (tag.drop 4).take 4 = (frame.drop 60).take 4 then
    some (frame.take 1 ++
      decF keys.1 (fromBytesBE ((frame.drop 56).take 4) * 256)
        ((frame.drop 1).take 55) ++
      frame.drop 56)
  else none

/-- Modelled from the spec: claim C1 as literally stated, comparing the LOW
4 bytes of the little-endian 8-byte tag (bytes 0..4 of its little-endian
encoding) with `frame[60..64)`. -/
def unprotectClaimLow (decF : Nat → Nat → List Nat → List Nat)
    (signF : Nat → List Nat → Nat) (keys : Nat × Nat) (frame : List Nat) :
    Option (List Nat) :=
  let tag := toBytesLE 8 (signF keys.2 (frame.take 60))
  if tag.take 4 = (frame.drop 60).take 4 then
    some (frame.take 1 ++
      decF keys.1 (fromBytesBE ((frame.drop 56).take 4) * 256)
        ((frame.drop 1).take 55) ++
      frame.drop 56)
  else none

/-- `read_response` payload extraction (lines 231-233): the content is
`usb_packet[2 : 2 + usb_packet[1]]`, a Python slice that silently truncates
at the end of the packet. -/
def extractContent (packet : List Nat) : List Nat :=
  (packet.drop 2).take (packet.getD 1 0)

/-- One inbound packet through the first half of `read_response` (lines
221-236): assert the packet is non-empty, read the type at byte 0, decrypt
when the profile is encrypted and the type is not exempt, then read the
length byte at index 1 (an `IndexError` on a 1-byte packet) and slice the
content. -/
def processPacket (decF : Nat → Nat → List Nat → List Nat)
    (signF : Nat → List Nat → Nat) (encrypted_protocol : Bool)
    (keys : Option (Nat × Nat)) (packet : List Nat) :
    Except SessionError (Nat × List Nat) :=
  if packet = [] then .error .emptyPacket
  else if encrypted_protocol ∧ packet.getD 0 0 ∉ _ALWAYS_UNENCRYPTED_MESSAGES then
    match keys with
    | none => .error .noSessionKeys
    | some k =>
      match decrypt_message decF signF k packet with
      | none => .error .integrityError
      | some pk =>
        if pk.length ≤ 1 then .error .indexError
        else .ok (packet.getD 0 0, extractContent pk)
  else if packet.length ≤ 1 then .error .indexError
  else .ok (packet.getD 0 0, extractContent packet)

/-- The error classification at the tail of `read_response` (lines 246-255). -/
def classifyMessage (message : Nat × List Nat) :
    Except SessionError (Nat × List Nat) :=
  if _is_unknown_message_error message then .error .unknownMessage
  else if _is_encryption_missing_error message then .error .encryptionMissing
  else if _is_encryption_setup_error message then .error .encryptionSetupFailed
  else .ok message

/-- `Session.read_response` (lines 219-255) over an explicit inbound packet
stream: process the head packet, silently recurse past keep-alives, classify
everything else.  Returns the message together with the unconsumed stream. -/
def read_response (decF : Nat → Nat → List Nat → List Nat)
    (signF : Nat → List Nat → Nat) (encrypted_protocol : Bool)
    (keys : Option (Nat × Nat)) :
    List (List Nat) → Except SessionError ((Nat × List Nat) × List (List Nat))
  | [] => .error .transportError
  | packet :: rest =>
    match processPacket decF signF encrypted_protocol keys packet with
    | .error e => .error e
    | .ok message =>
      if _is_keepalive_response message then
        read_response decF signF encrypted_protocol keys rest
      else
        (classifyMessage message).map (fun m => (m, rest))

/-- "CMD OK" as bytes. -/
def CMD_OK_TOKEN : List Nat := [67, 77, 68, 32, 79, 75]

/-- "CMD Fail!" as bytes. -/
def CMD_FAIL_TOKEN : List Nat := [67, 77, 68, 32, 70, 97, 105, 108, 33]

/-- Substring search, as `re.search` of a fixed pattern. -/
def containsSeq (needle : List Nat) : List Nat → Bool
  | [] => needle.isEmpty
  | x :: xs => needle.isPrefixOf (x :: xs) || containsSeq needle xs

/-- `_TEXT_COMPLETION_RE.search` (line 74): the buffer contains "CMD OK" or
"CMD Fail!". -/
def textCompletionFound (content : List Nat) : Bool :=
  containsSeq CMD_OK_TOKEN content || containsSeq CMD_FAIL_TOKEN content

/-- "CKSM:" as bytes. -/
def CKSM_TAG : List Nat := [67, 75, 83, 77, 58]

/-- "\r\nCMD OK\r\n" as bytes. -/
def OK_TAIL : List Nat := [13, 10, 67, 77, 68, 32, 79, 75, 13, 10]

/-- "\r\nCMD Fail!\r\n" as bytes. -/
def FAIL_TAIL : List Nat := [13, 10, 67, 77, 68, 32, 70, 97, 105, 108, 33, 13, 10]

def isDigitB (b : Nat) : Bool := decide (48 ≤ b ∧ b ≤ 57)

def isHexUpperB (b : Nat) : Bool := isDigitB b || decide (65 ≤ b ∧ b ≤ 70)

/-- Check that `tail` is `"CKSM:" ++ hex8 ++ endTail` and return the hex
digits. -/
def checkTextTail (tail : List Nat) (endTail : List Nat) : Option (List Nat) :=
  if tail.take 5 = CKSM_TAG ∧ ((tail.drop 5).take 8).length = 8 ∧
      ((tail.drop 5).take 8).all isHexUpperB ∧ tail.drop 13 = endTail then
    some ((tail.drop 5).take 8)
  else none

/-- `_TEXT_REPLY_FORMAT.search` (lines 75-79): the anchored pattern
`^(.*)CKSM:([0-9A-F]{8})\r\nCMD (OK|Fail!)\r\n$` with DOTALL.  The greedy
`(.*)` keeps the fixed-size trailer at the very end; the two status variants
have mutually exclusive endings.  Returns `(message, checksum, status == OK)`. -/
def textReplyMatch (s : List Nat) : Option (List Nat × List Nat × Bool) :=
  match (if 23 ≤ s.length then checkTextTail (s.drop (s.length - 23)) OK_TAIL
         else none) with
  | some hex => some (s.take (s.length - 23), hex, true)
  | none =>
    match (if 26 ≤ s.length then checkTextTail (s.drop (s.length - 26)) FAIL_TAIL
           else none) with
    | some hex => some (s.take (s.length - 26), hex, false)
    | none => none

/-- The trailer `[0-9]+,[0-9A-F]{8}\r\n` of `_MULTIRECORDS_FORMAT`, consuming
the whole remainder: maximal digit run for the count (the next byte can only
be the comma), then exactly 8 uppercase hex digits and CRLF. -/
def trailerSplit (rest : List Nat) : Option (List Nat × List Nat) :=
  if rest.takeWhile isDigitB ≠ [] ∧ (rest.dropWhile isDigitB).length = 11 ∧
      (rest.dropWhile isDigitB).getD 0 0 = 44 ∧
      (((rest.dropWhile isDigitB).drop 1).take 8).all isHexUpperB ∧
      (rest.dropWhile isDigitB).drop 9 = [13, 10] then
    some (rest.takeWhile isDigitB, ((rest.dropWhile isDigitB).drop 1).take 8)
  else none

/-- `_MULTIRECORDS_FORMAT.search` (lines 81-83): the anchored pattern
`^(.+\r\n)([0-9]+),([0-9A-F]{8})\r\n$` with DOTALL.  The greedy `(.+\r\n)`
takes the longest body (ending in CRLF, at least 3 bytes) whose remainder is
the count/checksum trailer.  Returns `(message, count, checksum)`. -/
def multirecordsMatch (s : List Nat) :
    Option (List Nat × List Nat × List Nat) :=
  (List.range (s.length + 1)).reverse.findSome? (fun k =>
    if 3 ≤ k ∧ (s.take k).drop (k - 2) = [13, 10] then
      match trailerSplit (s.drop k) with
      | some (count, cks) => some (s.take k, count, cks)
      | none => none
    else none)

/-- "Log Empty\r\n" as bytes. -/
def LOG_EMPTY : List Nat := [76, 111, 103, 32, 69, 109, 112, 116, 121, 13, 10]

/-- `bytes.decode(encoding, "replace")` for the ASCII-compatible session
encoding: bytes below 128 decode to themselves, anything else to U+FFFD. -/
def decodeReplace (l : List Nat) : List Char :=
  l.map (fun b => if b < 128 then Char.ofNat b else '�')

/-- `str.split("\r\n")`. -/
def splitCRLF : List Char → List (List Char)
  | [] => [[]]
  | '\r' :: '\n' :: rest => [] :: splitCRLF rest
  | c :: rest =>
    match splitCRLF rest with
    | [] => [[c]]
    | h :: t => (c :: h) :: t

/-- Splitting one CSV line at commas. -/
def splitComma : List Char → List (List Char)
  | [] => [[]]
  | ',' :: rest => [] :: splitComma rest
  | c :: rest =>
    match splitComma rest with
    | [] => [[c]]
    | h :: t => (c :: h) :: t

/-- One row of `csv.reader`: an empty line yields no fields, otherwise the
comma-separated fields (the device documents no quoting; see §9 of the
spec). -/
def csvRow (line : List Char) : List String :=
  if line = [] then [] else (splitComma line).map (fun cs => String.mk cs)

/-- `csv.reader(records_str.split("\r\n"))` over the decoded body. -/
def csvRecords (body : List Nat) : List (List String) :=
  (splitCRLF (decodeReplace body)).map csvRow

/-- The multirecord-specific part of `Session.query_multirecord` (lines
312-330), applied to the validated text reply body: short-circuit
"Log Empty\r\n", match the multirecord grammar, verify the checksum over the
body and return the CSV records.  The declared count is bound but never
used. -/
def query_multirecord_process (message : List Nat) :
    Except SessionError (List (List String)) :=
  if message = LOG_EMPTY then .ok []
  else
    match multirecordsMatch message with
    | none => .error .malformedReply
    | some (records_raw, _count, checksum) =>
      match _verify_checksum records_raw checksum with
      | .error e => .error e
      | .ok _ => .ok (csvRecords records_raw)

/-- The mutable state of a `Session` relevant to the modelled operations:
the profile flag, the installed session keys, the two text message types and
the transport's inbound/outbound packet streams. -/
structure SessionState where
  encrypted_protocol : Bool
  sessionKeys : Option (Nat × Nat)
  text_message_type : Nat
  text_reply_message_type : Nat
  inbound : List (List Nat)
  outbound : List (List Nat)
deriving DecidableEq

/-- `Session.send_command` (lines 201-217): build the frame, encrypt it when
the profile is encrypted and the type is not exempt, and write it to the
transport. -/
def send_command (encF : Nat → Nat → List Nat → List Nat)
    (signF : Nat → List Nat → Nat) (s : SessionState) (message_type : Nat)
    (command : List Nat) : Except SessionError SessionState :=
  match _FREESTYLE_MESSAGE_build message_type command with
  | none => .error .encodeError
  | some usb_packet =>
    if s.encrypted_protocol ∧ message_type ∉ _ALWAYS_UNENCRYPTED_MESSAGES then
      match s.sessionKeys with
      | none => .error .noSessionKeys
      | some k =>
        .ok { s with
              outbound := s.outbound ++ [encrypt_message encF signF k usb_packet] }
    else .ok { s with outbound := s.outbound ++ [usb_packet] }

/-- `Session.read_response` as a state operation. -/
def read_response_op (decF : Nat → Nat → List Nat → List Nat)
    (signF : Nat → List Nat → Nat) (s : SessionState) :
    Except SessionError ((Nat × List Nat) × SessionState) :=
  match read_response decF signF s.encrypted_protocol s.sessionKeys s.inbound with
  | .error e => .error e
  | .ok (m, rest) => .ok (m, { s with inbound := rest })

/-- The reply-accumulation loop of `_send_text_command_raw` (lines 262-278),
with fuel bounded by the inbound stream length: read a response, require the
text reply type, append the content, stop once the completion token
appears. -/
def textLoop (decF : Nat → Nat → List Nat → List Nat)
    (signF : Nat → List Nat → Nat) (encrypted_protocol : Bool)
    (keys : Option (Nat × Nat)) (replyType : Nat) :
    Nat → List (List Nat) → List Nat →
    Except SessionError (List Nat × List (List Nat))
  | 0, _, _ => .error .transportError
  | fuel + 1, stream, acc =>
    match read_response decF signF encrypted_protocol keys stream with
    | .error e => .error e
    | .ok (m, rest) =>
      if m.1 ≠ replyType then .error (.unexpectedType m.1)
      else if textCompletionFound (acc ++ m.2) then .ok (acc ++ m.2, rest)
      else textLoop decF signF encrypted_protocol keys replyType fuel rest (acc ++ m.2)

/-- `Session._send_text_command_raw` (lines 257-290): send the text command,
accumulate the reply, match the text trailer, verify the checksum, and fail
on a `Fail!` status. -/
def _send_text_command_raw (encF decF : Nat → Nat → List Nat → List Nat)
    (signF : Nat → List Nat → Nat) (s : SessionState) (command : List Nat) :
    Except SessionError (List Nat × SessionState) :=
  match send_command encF signF s s.text_message_type command with
  | .error e => .error e
  | .ok s1 =>
    match textLoop decF signF s1.encrypted_protocol s1.sessionKeys
        s1.text_reply_message_type (s1.inbound.length + 1) s1.inbound [] with
    | .error e => .error e
    | .ok (full_content, rest) =>
      match textReplyMatch full_content with
      | none => .error .malformedReply
      | some (message, checksum, statusOK) =>
        match _verify_checksum message checksum with
        | .error e => .error e
        | .ok _ =>
          if statusOK then .ok (message, { s1 with inbound := rest })
          else .error .commandFailed

/-- `Session.send_text_command` (lines 292-293). -/
def send_text_command (encF decF : Nat → Nat → List Nat → List Nat)
    (signF : Nat → List Nat → Nat) (s : SessionState) (command : List Nat) :
    Except SessionError (List Char × SessionState) :=
  match _send_text_command_raw encF decF signF s command with
  | .error e => .error e
  | .ok (m, s2) => .ok (decodeReplace m, s2)

/-- `Session.query_multirecord` (lines 295-330). -/
def query_multirecord (encF decF : Nat → Nat → List Nat → List Nat)
    (signF : Nat → List Nat → Nat) (s : SessionState) (command : List Nat) :
    Except SessionError (List (List String) × SessionState) :=
  match _send_text_command_raw encF decF signF s command with
  | .error e => .error e
  | .ok (message, s2) =>
    match query_multirecord_process message with
    | .error e => .error e
    | .ok records => .ok (records, s2)

/-- The post-handshake operations of a `Session`. -/
inductive SessionOp where
  | sendCommand (message_type : Nat) (command : List Nat)
  | readResponse
  | sendTextCommand (command : List Nat)
  | queryMultirecord (command : List Nat)

/-- The visible result of one session operation. -/
inductive SessionOutput where
  | unit
  | message (m : Nat × List Nat)
  | text (t : List Char)
  | records (r : List (List String))
deriving DecidableEq

/-- One step of the session: run a post-handshake operation on a state. -/
def session_step (encF decF : Nat → Nat → List Nat → List Nat)
    (signF : Nat → List Nat → Nat) (op : SessionOp) (s : SessionState) :
    Except SessionError (SessionState × SessionOutput) :=
  match op with
  | .sendCommand t p =>
    match send_command encF signF s t p with
    | .error e => .error e
    | .ok s2 => .ok (s2, .unit)
  | .readResponse =>
    match read_response_op decF signF s with
    | .error e => .error e
    | .ok (m, s2) => .ok (s2, .message m)
  | .sendTextCommand c =>
    match send_text_command encF decF signF s c with
    | .error e => .error e
    | .ok (t, s2) => .ok (s2, .text t)
  | .queryMultirecord c =>
    match query_multirecord encF decF signF s c with
    | .error e => .error e
    | .ok (r, s2) => .ok (s2, .records r)

/-- The claim C3's description of inbound extraction: type at byte 1, length
at byte 2, payload at bytes 3..3+L (the outbound offsets applied to an
inbound frame). -/
def inboundDecodeClaim (q : List Nat) : Nat × List Nat :=
  (q.getD 1 0, (q.drop 3).take (q.getD 2 0))

/-- A concrete stand-in for the Speck CMAC sign primitive, used in
counterexamples and witnesses. -/
def cSign : Nat → List Nat → Nat := fun _ _ => 0x0102030405060708

/-- A concrete stand-in for the Speck encrypt/decrypt primitives (identity on
the data), used in counterexamples and witnesses. -/
def cDec : Nat → Nat → List Nat → List Nat := fun _ _ data => data

/-- A 64-byte inbound frame whose trailing 4 bytes equal the HIGH 4 bytes of
the (little-endian) tag produced by `cSign`. -/
def c1Packet : List Nat := List.replicate 60 0 ++ [4, 3, 2, 1]

/-- A concrete encrypted-profile session state. -/
def exStateEnc : SessionState :=
  { encrypted_protocol := true, sessionKeys := some (7, 9),
    text_message_type := 0x60, text_reply_message_type := 0x60,
    inbound := [], outbound := [] }

/-- A concrete plain-profile session state. -/
def exStatePlain : SessionState :=
  { encrypted_protocol := false, sessionKeys := some (7, 9),
    text_message_type := 0x60, text_reply_message_type := 0x60,
    inbound := [], outbound := [] }

/-- The multirecord reply `"a,1\r\nb,2\r\n7,000001AC\r\n"`: two data records,
a declared count of 7, and a correct checksum (the body bytes sum to 428 =
0x1AC). -/
def c8msg : List Nat :=
  [97, 44, 49, 13, 10, 98, 44, 50, 13, 10] ++
  [55, 44, 48, 48, 48, 48, 48, 49, 65, 67, 13, 10]

/-! ### Helper lemmas -/

theorem toBytesLE_length (n x : Nat) : (toBytesLE n x).length = n := by
  induction n generalizing x with
  | zero => rfl
  | succ m ih => simp [toBytesLE, ih]

theorem hexDigitVal_hexDigitChar (d : Nat) (h : d < 16) :
    hexDigitVal (hexDigitChar d) = d := by
  unfold hexDigitVal hexDigitChar
  split_ifs <;> omega

theorem hexValue_toHex8 (m : Nat) (h : m < 4294967296) :
    hexValue (toHex8 m) = m := by
  have hd : ∀ x : Nat, hexDigitVal (hexDigitChar (x % 16)) = x % 16 := fun x =>
    hexDigitVal_hexDigitChar _ (Nat.mod_lt _ (by norm_num))
  unfold toHex8 hexValue
  simp only [List.foldl, hd]
  omega

theorem sum_set_exchange (s : List Nat) (i b : Nat) (h : i < s.length) :
    (s.set i b).sum + s.getD i 0 = s.sum + b := by
  induction s generalizing i with
  | nil => simp at h
  | cons a t ih =>
    cases i with
    | zero => simp [List.set, List.getD]; omega
    | succ j =>
      have hj : j < t.length := by simpa using h
      have := ih j hj
      simp only [List.set, List.sum_cons, List.getD_cons_succ]
      omega

theorem keepalive_matcher_true (m : Nat × List Nat) (h : m.1 = 0x22) :
    _is_keepalive_response m = true := by
  simp [_is_keepalive_response, _create_matcher, h]

theorem keepalive_matcher_false (m : Nat × List Nat) (h : m.1 ≠ 0x22) :
    _is_keepalive_response m = false := by
  simp [_is_keepalive_response, _create_matcher, h]

theorem matcher_some_iff (mt : Nat) (c : List Nat) (m : Nat × List Nat) :
    _create_matcher mt (some c) m = true ↔ m.1 = mt ∧ m.2 = c := by
  unfold _create_matcher
  rw [Bool.and_eq_true, beq_iff_eq, beq_iff_eq]
  exact and_congr Iff.rfl eq_comm

theorem read_response_cons (decF : Nat → Nat → List Nat → List Nat)
    (signF : Nat → List Nat → Nat) (encP : Bool) (keys : Option (Nat × Nat))
    (packet : List Nat) (rest : List (List Nat)) :
    read_response decF signF encP keys (packet :: rest) =
      match processPacket decF signF encP keys packet with
      | .error e => .error e
      | .ok message =>
        if _is_keepalive_response message then
          read_response decF signF encP keys rest
        else (classifyMessage message).map (fun m => (m, rest)) := rfl

theorem processPacket_plain (decF : Nat → Nat → List Nat → List Nat)
    (signF : Nat → List Nat → Nat) (keys : Option (Nat × Nat)) (q : List Nat)
    (h2 : 2 ≤ q.length) :
    processPacket decF signF false keys q = .ok (q.getD 0 0, extractContent q) := by
  have hne : ¬(q = []) := by
    intro h
    rw [h] at h2
    simp at h2
  unfold processPacket
  rw [if_neg hne,
    if_neg (by simp :
      ¬((false : Bool) ∧ q.getD 0 0 ∉ _ALWAYS_UNENCRYPTED_MESSAGES)),
    if_neg (by omega : ¬(q.length ≤ 1))]

theorem processPacket_keepalive (decF : Nat → Nat → List Nat → List Nat)
    (signF : Nat → List Nat → Nat) (encP : Bool) (keys : Option (Nat × Nat))
    (q : List Nat) (h2 : 2 ≤ q.length) (ht : q.getD 0 0 = 0x22) :
    processPacket decF signF encP keys q = .ok (0x22, extractContent q) := by
  have hne : ¬(q = []) := by
    intro h
    rw [h] at h2
    simp at h2
  have hmem : ¬(encP = true ∧ q.getD 0 0 ∉ _ALWAYS_UNENCRYPTED_MESSAGES) := by
    intro hcc
    exact hcc.2 (by rw [ht]; decide)
  unfold processPacket
  rw [if_neg hne, if_neg hmem, if_neg (by omega : ¬(q.length ≤ 1)), ht]

theorem classify_ok (m : Nat × List Nat) (h30 : m ≠ (0x30, [0x85]))
    (h33a : m ≠ (0x33, [0x15])) (h33b : m ≠ (0x33, [0x14])) :
    classifyMessage m = .ok m := by
  have hc : ∀ (a : Nat) (c : List Nat),
      _create_matcher a (some c) m = true → m = (a, c) := by
    intro a c hm
    obtain ⟨h1, h2⟩ := (matcher_some_iff a c m).1 hm
    cases m
    simp_all
  unfold classifyMessage
  rw [if_neg (show ¬(_is_unknown_message_error m = true) from
        fun hm => h30 (hc _ _ hm)),
    if_neg (show ¬(_is_encryption_missing_error m = true) from
        fun hm => h33a (hc _ _ hm)),
    if_neg (show ¬(_is_encryption_setup_error m = true) from
        fun hm => h33b (hc _ _ hm))]

/-! ### Claim C7: frame round-trip and rejection -/

/-- C7: for every type in [0,255] and every payload, the 65-byte frame
produced by `encode(type, payload)` decodes to exactly `(type, payload)`
whenever encoding succeeds, and encoding fails if and only if the payload
length exceeds 62. -/
theorem c7_frame_roundtrip (t : Nat) (p : List Nat) (ht : t ≤ 255) :
    (∀ f, _FREESTYLE_MESSAGE_build t p = some f →
      _FREESTYLE_MESSAGE_parse f = some (t, p)) ∧
    (_FREESTYLE_MESSAGE_build t p = none ↔ 62 < p.length) := by
  constructor
  · intro f hf
    unfold _FREESTYLE_MESSAGE_build at hf
    by_cases hp : p.length ≤ 62
    · rw [if_pos ⟨ht, hp⟩] at hf
      cases hf
      unfold _FREESTYLE_MESSAGE_parse
      rw [if_pos]
      · simp [List.take_left]
      · refine ⟨?_, rfl, by simpa using hp⟩
        simp only [List.length_cons, List.length_append, List.length_replicate]
        omega
    · rw [if_neg (by tauto)] at hf
      cases hf
  · unfold _FREESTYLE_MESSAGE_build
    constructor
    · intro h
      by_contra hc
      rw [if_pos ⟨ht, by omega⟩] at h
      cases h
    · intro h
      rw [if_neg (by omega)]

/-- Witness for C7 at `type = 0x05`, `payload = [1, 2]`. -/
theorem c7_frame_roundtrip_witness :
    _FREESTYLE_MESSAGE_parse
        (0 :: 5 :: 2 :: ([1, 2] ++ List.replicate 60 0)) = some (5, [1, 2]) :=
  (c7_frame_roundtrip 5 [1, 2] (by decide)).1 _ (by decide)

/-! ### Claim C2: checksum law -/

/-- C2 (corrected): `_verify_checksum` compares the full, unreduced byte sum
with the parsed checksum, so verifying `s` against the 8-hex-digit
representation of `sum(s) mod 2^32` succeeds exactly when the byte sum of
`s` is below `2^32`; and for every `s`, any single-byte mutation of `s`
fails against that same checksum. -/
theorem c2_checksum_law (s : List Nat) :
    (s.sum < 2 ^ 32 → _verify_checksum s (toHex8 (s.sum % 2 ^ 32)) = .ok ()) ∧
    (∀ i b, i < s.length → s.getD i 0 ≤ 255 → b ≤ 255 → b ≠ s.getD i 0 →
      _verify_checksum (s.set i b) (toHex8 (s.sum % 2 ^ 32)) =
        .error .checksumError) := by
  have h32 : (2 : Nat) ^ 32 = 4294967296 := by norm_num
  rw [h32]
  have hmodlt : s.sum % 4294967296 < 4294967296 := Nat.mod_lt _ (by norm_num)
  have hv : hexValue (toHex8 (s.sum % 4294967296)) = s.sum % 4294967296 :=
    hexValue_toHex8 _ hmodlt
  constructor
  · intro hlt
    unfold _verify_checksum
    rw [hv, Nat.mod_eq_of_lt hlt, if_pos rfl]
  · intro i b hi hgi hb hne
    unfold _verify_checksum
    rw [hv]
    have hset := sum_set_exchange s i b hi
    rw [if_neg (by omega)]

/-- The first half of C2, as stated, is violated: a byte string whose sum
reaches `2^32` (16843010 bytes of value 255, summing to 4294967550) fails
verification against the 8-hex-digit representation of its sum mod `2^32`,
because the source compares the unreduced sum. -/
theorem c2_checksum_counterexample :
    _verify_checksum (List.replicate 16843010 255)
      (toHex8 ((List.replicate 16843010 (255 : Nat)).sum % 2 ^ 32)) =
      .error .checksumError := by
  have hs : (List.replicate 16843010 (255 : Nat)).sum = 4294967550 := by
    rw [List.sum_const_nat]
  have hceq : (List.replicate 16843010 (255 : Nat)).sum % 2 ^ 32 = 254 := by
    rw [hs]; norm_num
  have hv : hexValue (toHex8 254) = 254 := by decide
  unfold _verify_checksum
  rw [hceq, hv, hs, if_neg (by norm_num)]

/-- Witness for C2 at `s = [1, 2, 3]` with the mutation `s[1] := 5`. -/
theorem c2_checksum_witness :
    _verify_checksum [1, 2, 3] (toHex8 (([1, 2, 3] : List Nat).sum % 2 ^ 32)) =
        .ok () ∧
    _verify_checksum (([1, 2, 3] : List Nat).set 1 5)
        (toHex8 (([1, 2, 3] : List Nat).sum % 2 ^ 32)) =
        .error .checksumError :=
  ⟨(c2_checksum_law [1, 2, 3]).1 (by decide),
   (c2_checksum_law [1, 2, 3]).2 1 5 (by decide) (by decide) (by decide)
     (by decide)⟩

/-! ### Claim C1: inbound unprotect -/

/-- C1 (corrected): `decrypt_message` first verifies the CMAC of `mac_key`
over `frame[0..60)` by comparing bytes 4..8 of its little-endian 8-byte
encoding — its HIGH 4 bytes, not its low 4 bytes — to `frame[60..64)`,
raising an integrity error and discarding the frame on mismatch, and only
then decrypts bytes `[1..56)` in place using
`IV = u32_be(frame[56..60)) << 8`. -/
theorem c1_unprotect_matches_spec (decF : Nat → Nat → List Nat → List Nat)
    (signF : Nat → List Nat → Nat) (keys : Nat × Nat) (packet : List Nat) :
    decrypt_message decF signF keys packet =
      unprotectSpecHigh decF signF keys packet := by
  unfold decrypt_message unprotectSpecHigh setSlice
  have h : ((toBytesLE 8 (signF keys.2 (packet.take 60))).drop 4).take 4 =
      (toBytesLE 8 (signF keys.2 (packet.take 60))).drop 4 := by
    apply List.take_of_length_le
    simp [toBytesLE_length]
  simp only [h]

/-- C1 as stated is violated: with a sign function returning the tag
`0x0102030405060708` and a frame whose final 4 bytes `[4, 3, 2, 1]` equal
the HIGH 4 bytes of that tag's little-endian encoding, `decrypt_message`
accepts the frame while the claim's low-4-byte comparison would reject
it. -/
theorem c1_unprotect_counterexample :
    (decrypt_message cDec cSign (0, 0) c1Packet).isSome = true ∧
    unprotectClaimLow cDec cSign (0, 0) c1Packet = none := by decide

/-! ### Claim C3: frame layout -/

/-- C3 (corrected): outbound frames have the layout byte 0 = report id 0,
byte 1 = type, byte 2 = length, bytes 3..3+L = payload; inbound frames as
consumed by `read_response` are shifted down one byte (no report-id byte):
the type is at byte 0, the length at byte 1 and the payload at bytes
2..2+L, so extraction of an outbound-encoded body works on the frame with
its report-id byte stripped. -/
theorem c3_frame_layout (t : Nat) (p : List Nat) (f : List Nat)
    (hf : _FREESTYLE_MESSAGE_build t p = some f) :
    f.getD 0 1 = 0 ∧ f.getD 1 0 = t ∧ f.getD 2 0 = p.length ∧
    (f.drop 3).take p.length = p ∧
    (f.drop 1).getD 0 0 = t ∧ extractContent (f.drop 1) = p := by
  unfold _FREESTYLE_MESSAGE_build at hf
  by_cases hc : t ≤ 255 ∧ p.length ≤ 62
  · rw [if_pos hc] at hf
    cases hf
    refine ⟨rfl, rfl, rfl, ?_, rfl, ?_⟩
    · simp [List.take_left]
    · simp [extractContent, List.take_left]
  · rw [if_neg hc] at hf
    cases hf

/-- C3 as stated is violated on the inbound side: on the inbound frame
`[0x06, 1, 0x09, 0]`, `read_response` extracts `(0x06, [0x09])` (type at
byte 0, length at byte 1, payload from byte 2), not the claimed outbound
offsets (type at byte 1, length at byte 2, payload from byte 3), which
would give `(1, [0])`. -/
theorem c3_inbound_offset_counterexample :
    processPacket cDec cSign false none [0x06, 1, 0x09, 0] = .ok (0x06, [0x09]) ∧
    inboundDecodeClaim [0x06, 1, 0x09, 0] ≠ (0x06, [0x09]) := by decide

/-- Witness for C3 at `type = 5`, `payload = [9]`. -/
theorem c3_frame_layout_witness :
    extractContent ((0 :: 5 :: 1 :: ([9] ++ List.replicate 61 0)).drop 1) = [9] :=
  (c3_frame_layout 5 [9] (0 :: 5 :: 1 :: ([9] ++ List.replicate 61 0))
    (by decide)).2.2.2.2.2

/-! ### Claim C4: always-unencrypted exemption -/

/-- C4: for every message type in the always-unencrypted set and every
payload of length at most 62, `send_command` emits a frame byte-identical to
the plain encoding of `(type, payload)` even when the profile is
encrypted — whatever the session keys and cipher are. -/
theorem c4_always_unencrypted (encF : Nat → Nat → List Nat → List Nat)
    (signF : Nat → List Nat → Nat) (s : SessionState) (t : Nat) (p : List Nat)
    (henc : s.encrypted_protocol = true) (ht : t ∈ _ALWAYS_UNENCRYPTED_MESSAGES)
    (htb : t ≤ 255) (hp : p.length ≤ 62) :
    ∃ f, _FREESTYLE_MESSAGE_build t p = some f ∧
      send_command encF signF s t p =
        .ok { s with outbound := s.outbound ++ [f] } := by
  have hb : _FREESTYLE_MESSAGE_build t p =
      some (0 :: t :: p.length :: (p ++ List.replicate (62 - p.length) 0)) := by
    unfold _FREESTYLE_MESSAGE_build
    rw [if_pos ⟨htb, hp⟩]
  refine ⟨_, hb, ?_⟩
  simp only [send_command, hb]
  rw [if_neg (fun hcc => hcc.2 ht)]

/-- Witness for C4: the init command `0x01` with empty payload on an
encrypted-profile state. -/
theorem c4_always_unencrypted_witness :
    ∃ f, _FREESTYLE_MESSAGE_build 0x01 [] = some f ∧
      send_command cDec cSign exStateEnc 0x01 [] =
        .ok { exStateEnc with outbound := exStateEnc.outbound ++ [f] } :=
  c4_always_unencrypted cDec cSign exStateEnc 0x01 [] rfl (by decide) (by decide)
    (by decide)

/-! ### Claim C10: over-long length byte -/

/-- C10: for every inbound packet holding at least the type and length bytes,
when the length byte exceeds the number of bytes available after it, payload
extraction does not fail: `read_response` slices off all available bytes
after the length byte. -/
theorem c10_truncated_payload (q : List Nat) (h2 : 2 ≤ q.length)
    (hlen : q.length - 2 < q.getD 1 0) :
    extractContent q = q.drop 2 ∧
    ∀ (decF : Nat → Nat → List Nat → List Nat) (signF : Nat → List Nat → Nat)
      (keys : Option (Nat × Nat)),
      processPacket decF signF false keys q = .ok (q.getD 0 0, q.drop 2) := by
  have hex : extractContent q = q.drop 2 := by
    unfold extractContent
    apply List.take_of_length_le
    simp only [List.length_drop]
    omega
  refine ⟨hex, ?_⟩
  intro decF signF keys
  have hne : ¬(q = []) := by
    intro h
    rw [h] at h2
    simp at h2
  have hl2 : ¬(q.length ≤ 1) := by omega
  unfold processPacket
  rw [if_neg hne,
    if_neg (by simp :
      ¬((false : Bool) ∧ q.getD 0 0 ∉ _ALWAYS_UNENCRYPTED_MESSAGES)),
    if_neg hl2, hex]

/-- Witness for C10: the packet `[5, 9, 1]` declares 9 payload bytes but
holds one. -/
theorem c10_truncated_payload_witness :
    extractContent [5, 9, 1] = [1] ∧
    processPacket cDec cSign false none [5, 9, 1] = .ok (5, [1]) := by
  have h := c10_truncated_payload [5, 9, 1] (by decide) (by decide)
  exact ⟨h.1, h.2 cDec cSign none⟩

/-! ### Claim C5: keep-alive transparency -/

/-- C5 (corrected): `read_response` silently discards every leading
keep-alive frame (type `0x22`, any payload), so its outcome on
`[keepalive*, X, ...]` equals its outcome on `[X, ...]` regardless of the
keep-alive count; when `X` decodes to a non-keep-alive message that is not
one of the three error frames, that outcome is the decoded `X` itself
(error frames instead raise their error, still independently of the
keep-alive count). -/
theorem c5_keepalive_transparency (decF : Nat → Nat → List Nat → List Nat)
    (signF : Nat → List Nat → Nat) (encP : Bool) (keys : Option (Nat × Nat))
    (ks : List (List Nat)) (x : List Nat) (rest : List (List Nat))
    (hka : ∀ q ∈ ks, 2 ≤ q.length ∧ q.getD 0 0 = 0x22) :
    read_response decF signF encP keys (ks ++ x :: rest) =
      read_response decF signF encP keys (x :: rest) ∧
    (∀ m, processPacket decF signF encP keys x = .ok m → m.1 ≠ 0x22 →
      m ≠ (0x30, [0x85]) → m ≠ (0x33, [0x15]) → m ≠ (0x33, [0x14]) →
      read_response decF signF encP keys (ks ++ x :: rest) = .ok (m, rest)) := by
  have hskip : ∀ (l : List (List Nat)),
      (∀ q ∈ l, 2 ≤ q.length ∧ q.getD 0 0 = 0x22) →
      read_response decF signF encP keys (l ++ x :: rest) =
        read_response decF signF encP keys (x :: rest) := by
    intro l
    induction l with
    | nil => intro _; rfl
    | cons q tl ih =>
      intro hl
      have hq := hl q (List.mem_cons_self q tl)
      rw [List.cons_append, read_response_cons,
        processPacket_keepalive decF signF encP keys q hq.1 hq.2]
      simp only [keepalive_matcher_true (0x22, extractContent q) rfl, if_true]
      exact ih (fun r hr => hl r (List.mem_cons_of_mem q hr))
  refine ⟨hskip ks hka, ?_⟩
  intro m hm hk h30 h33a h33b
  rw [hskip ks hka, read_response_cons, hm]
  simp only [keepalive_matcher_false m hk, Bool.false_eq_true, if_false]
  rw [classify_ok m h30 h33a h33b]
  rfl

/-- C5 as stated is violated when the trailing frame is an error frame: the
stream `[keepalive, (0x30, [0x85])]` does not return `(0x30, [0x85])`;
`read_response` raises the unknown-message error instead. -/
theorem c5_keepalive_counterexample :
    read_response cDec cSign false none [[0x22, 1, 0], [0x30, 1, 0x85]] =
      .error .unknownMessage ∧
    read_response cDec cSign false none [[0x22, 1, 0], [0x30, 1, 0x85]] ≠
      .ok ((0x30, [0x85]), []) := by decide

/-- Witness for C5: one keep-alive followed by the frame `[0x06, 1, 9]`. -/
theorem c5_keepalive_transparency_witness :
    read_response cDec cSign false none [[0x22, 1, 0], [0x06, 1, 9]] =
      .ok ((6, [9]), []) :=
  (c5_keepalive_transparency cDec cSign false none [[0x22, 1, 0]] [0x06, 1, 9]
    [] (by decide)).2 (6, [9]) (by decide) (by decide) (by decide) (by decide)
    (by decide)

/-! ### Claim C6: error classification -/

/-- C6: after decoding and keep-alive filtering, `read_response` classifies
the message exactly as the claim states: `(0x30, [0x85])` signals the
unknown-message error, `(0x33, [0x15])` signals encryption-not-initialized,
`(0x33, [0x14])` signals encryption-setup-failed, and every other message is
returned as `(type, payload)`; moreover on a plain profile `read_response`
is exactly this classification applied to the extracted message. -/
theorem c6_error_classification (t : Nat) (p : List Nat) :
    classifyMessage (t, p) =
      (if t = 0x30 ∧ p = [0x85] then .error .unknownMessage
       else if t = 0x33 ∧ p = [0x15] then .error .encryptionMissing
       else if t = 0x33 ∧ p = [0x14] then .error .encryptionSetupFailed
       else .ok (t, p)) ∧
    ∀ (decF : Nat → Nat → List Nat → List Nat) (signF : Nat → List Nat → Nat)
      (keys : Option (Nat × Nat)) (q : List Nat) (rest : List (List Nat)),
      2 ≤ q.length → q.getD 0 0 ≠ 0x22 →
      read_response decF signF false keys (q :: rest) =
        (classifyMessage (q.getD 0 0, extractContent q)).map
          (fun m => (m, rest)) := by
  constructor
  · by_cases hA : t = 0x30 ∧ p = [0x85]
    · obtain ⟨h1, h2⟩ := hA
      subst h1
      subst h2
      simp [classifyMessage, _is_unknown_message_error, _create_matcher]
    · by_cases hB : t = 0x33 ∧ p = [0x15]
      · obtain ⟨h1, h2⟩ := hB
        subst h1
        subst h2
        simp [classifyMessage, _is_unknown_message_error,
          _is_encryption_missing_error, _create_matcher]
      · by_cases hC : t = 0x33 ∧ p = [0x14]
        · obtain ⟨h1, h2⟩ := hC
          subst h1
          subst h2
          simp [classifyMessage, _is_unknown_message_error,
            _is_encryption_missing_error, _is_encryption_setup_error,
            _create_matcher]
        · rw [classify_ok (t, p) (by simpa using hA) (by simpa using hB)
            (by simpa using hC), if_neg hA, if_neg hB, if_neg hC]
  · intro decF signF keys q rest h2 hk
    rw [read_response_cons, processPacket_plain decF signF keys q h2]
    simp only [keepalive_matcher_false (q.getD 0 0, extractContent q) hk,
      Bool.false_eq_true, if_false]

/-! ### Claim C8: multirecord count not compared -/

/-- C8: for every multirecord reply whose trailer matches the multirecord
grammar (with ANY declared count) and whose checksum over the body verifies,
`query_multirecord` returns the CSV records of the body; the declared count
is never compared with the number of emitted records, so the query succeeds
even when they differ. -/
theorem c8_multirecord_count_ignored (message body count cks : List Nat)
    (hm : multirecordsMatch message = some (body, count, cks))
    (hc : hexValue cks = body.sum) :
    query_multirecord_process message = .ok (csvRecords body) := by
  have hne : ¬(message = LOG_EMPTY) := by
    intro h
    rw [h] at hm
    rw [(by decide : multirecordsMatch LOG_EMPTY = none)] at hm
    cases hm
  simp only [query_multirecord_process, hm]
  rw [if_neg hne]
  simp [_verify_checksum, hc]

/-- Witness for C8: the reply `"a,1\r\nb,2\r\n7,000001AC\r\n"` declares a
count of 7 while the body splits into 3 CSV records (including the trailing
empty one), and the query succeeds. -/
theorem c8_multirecord_count_ignored_witness :
    query_multirecord_process c8msg =
      .ok (csvRecords [97, 44, 49, 13, 10, 98, 44, 50, 13, 10]) :=
  c8_multirecord_count_ignored c8msg [97, 44, 49, 13, 10, 98, 44, 50, 13, 10]
    [55] [48, 48, 48, 48, 48, 49, 65, 67] (by decide) (by decide)

/-- Witness for C6: the error frame `(0x30, [0x85])` and a plain packet. -/
theorem c6_error_classification_witness :
    classifyMessage (0x30, [0x85]) = .error .unknownMessage ∧
    read_response cDec cSign false none [[0x30, 1, 0x85]] =
      .error .unknownMessage := by
  constructor
  · have h := (c6_error_classification 0x30 [0x85]).1
    simpa using h
  · have h := (c6_error_classification 0 []).2 cDec cSign none [0x30, 1, 0x85]
      [] (by decide) (by decide)
    rw [h]
    decide

/-! ### Claim C9: session-key immutability -/

theorem send_command_keys (encF : Nat → Nat → List Nat → List Nat)
    (signF : Nat → List Nat → Nat) (s : SessionState) (t : Nat) (p : List Nat)
    (s2 : SessionState) (h : send_command encF signF s t p = .ok s2) :
    s2.sessionKeys = s.sessionKeys := by
  unfold send_command at h
  split at h
  · cases h
  · split at h
    · split at h
      · cases h
      · cases h
        rfl
    · cases h
      rfl

theorem read_response_op_keys (decF : Nat → Nat → List Nat → List Nat)
    (signF : Nat → List Nat → Nat) (s : SessionState) (m : Nat × List Nat)
    (s2 : SessionState) (h : read_response_op decF signF s = .ok (m, s2)) :
    s2.sessionKeys = s.sessionKeys := by
  unfold read_response_op at h
  split at h
  · cases h
  · cases h
    rfl

theorem send_text_raw_keys (encF decF : Nat → Nat → List Nat → List Nat)
    (signF : Nat → List Nat → Nat) (s : SessionState) (c : List Nat)
    (msg : List Nat) (s2 : SessionState)
    (h : _send_text_command_raw encF decF signF s c = .ok (msg, s2)) :
    s2.sessionKeys = s.sessionKeys := by
  unfold _send_text_command_raw at h
  split at h
  · cases h
  next s1 heq =>
    split at h
    · cases h
    · split at h
      · cases h
      · split at h
        · cases h
        · split at h
          · cases h
            exact send_command_keys encF signF s s.text_message_type c s1 heq
          · cases h

theorem send_text_command_keys (encF decF : Nat → Nat → List Nat → List Nat)
    (signF : Nat → List Nat → Nat) (s : SessionState) (c : List Nat)
    (txt : List Char) (s2 : SessionState)
    (h : send_text_command encF decF signF s c = .ok (txt, s2)) :
    s2.sessionKeys = s.sessionKeys := by
  unfold send_text_command at h
  split at h
  · cases h
  next m s3 heq =>
    cases h
    exact send_text_raw_keys encF decF signF s c m s2 heq

theorem query_multirecord_keys (encF decF : Nat → Nat → List Nat → List Nat)
    (signF : Nat → List Nat → Nat) (s : SessionState) (c : List Nat)
    (r : List (List String)) (s2 : SessionState)
    (h : query_multirecord encF decF signF s c = .ok (r, s2)) :
    s2.sessionKeys = s.sessionKeys := by
  unfold query_multirecord at h
  split at h
  · cases h
  next m s3 heq =>
    split at h
    · cases h
    · cases h
      exact send_text_raw_keys encF decF signF s c m s2 heq

/-- C9: once session keys are installed, none of the session's
post-handshake operations (send_command, read_response, send_text_command,
query_multirecord) changes them: each successful step preserves the
`sessionKeys` field of the state exactly. -/
theorem c9_session_keys_immutable (encF decF : Nat → Nat → List Nat → List Nat)
    (signF : Nat → List Nat → Nat) (op : SessionOp) (s s2 : SessionState)
    (out : SessionOutput)
    (h : session_step encF decF signF op s = .ok (s2, out)) :
    s2.sessionKeys = s.sessionKeys := by
  cases op with
  | sendCommand t p =>
    simp only [session_step] at h
    split at h
    · cases h
    next s3 heq =>
      cases h
      exact send_command_keys encF signF s t p s2 heq
  | readResponse =>
    simp only [session_step] at h
    split at h
    · cases h
    next m s3 heq =>
      cases h
      exact read_response_op_keys decF signF s m s2 heq
  | sendTextCommand c =>
    simp only [session_step] at h
    split at h
    · cases h
    next txt s3 heq =>
      cases h
      exact send_text_command_keys encF decF signF s c txt s2 heq
  | queryMultirecord c =>
    simp only [session_step] at h
    split at h
    · cases h
    next r s3 heq =>
      cases h
      exact query_multirecord_keys encF decF signF s c r s2 heq

/-- Witness for C9: sending the init command on a concrete state with keys
installed leaves the keys untouched. -/
theorem c9_session_keys_immutable_witness :
    session_step cDec cDec cSign (.sendCommand 1 []) exStatePlain =
      .ok ({ exStatePlain with
             outbound := [0 :: 1 :: 0 :: List.replicate 62 0] }, .unit) ∧
    ({ exStatePlain with
       outbound := [0 :: 1 :: 0 :: List.replicate 62 0] } :
        SessionState).sessionKeys = exStatePlain.sessionKeys :=
  ⟨by decide,
   c9_session_keys_immutable cDec cDec cSign (.sendCommand 1 []) exStatePlain
     ({ exStatePlain with outbound := [0 :: 1 :: 0 :: List.replicate 62 0] })
     .unit (by decide)⟩

end FreestyleHid
